import Mathlib

/-
Verification development for the otel-example-python service.

The definitions below are a shallow embedding of the parts of the source
relevant to the lifecycle, telemetry-setup, logging-setup and user-CRUD
behaviour:

  app/main.py            -> startup step order (module import + lifespan)
  app/config.py          -> Settings (defaults)
  app/logging_config.py  -> setup_logging over an explicit logger state
  app/telemetry.py       -> setup_telemetry / shutdown_telemetry over an
                            explicit process-wide telemetry state
  app/routes/health.py   -> ready endpoint over an abstract probe outcome
  app/routes/user_routes.py and app/repository/user_repository.py
                         -> CRUD handlers over a list-of-rows store model

Stateful Python code is modelled by explicit state passing; construction
side effects (exporters, processors, registrations) are modelled by an
emitted event list; exceptions are modelled with Except.
-/

namespace OtelExample

/-! ## Data model: users (app/models.py, app/schemas/user_schema.py) -/

/-- A stored user row: id, name, email (unique), nullable bio.  The
timestamp columns play no role in any claim and are omitted. -/
structure User where
  id : Nat
  name : String
  email : String
  bio : Option String
deriving Repr, DecidableEq

/-- Payload of POST /api/users (schema UserCreate): all fields required
except bio. -/
structure UserCreate where
  name : String
  email : String
  bio : Option String
deriving Repr, DecidableEq

/-- Payload of PUT /api/users (schema UserUpdate): every field optional;
`none` models a field absent from the payload (pydantic
model_dump(exclude_unset=True) drops it), `some v` a field explicitly set.
For bio, `some none` models an explicit null. -/
structure UserUpdate where
  name : Option String
  email : Option String
  bio : Option (Option String)
deriving Repr, DecidableEq

/-- The user table, as the ordered list of stored rows. -/
abbrev Db := List User

/-! ## Repository (app/repository/user_repository.py) -/

/-- UserRepository.get_by_id: SELECT by primary key, first matching row
or none. -/
def get_by_id (db : Db) (user_id : Nat) : Option User :=
  db.find? (fun u => u.id == user_id)

/-- UserRepository.get_by_email: SELECT by the unique email column. -/
def get_by_email (db : Db) (email : String) : Option User :=
  db.find? (fun u => u.email == email)

/-- UserRepository.create: INSERT of a fresh row; the store assigns the
auto-increment id, passed here explicitly as newId. -/
def repo_create (db : Db) (newId : Nat) (d : UserCreate) : Db × User :=
  let u : User := { id := newId, name := d.name, email := d.email, bio := d.bio }
  (db ++ [u], u)

/-- The setattr loop of UserRepository.update: each field present in
model_dump(exclude_unset=True) overwrites the row field; absent fields
are untouched, and id is never in the dump. -/
def apply_update (u : User) (d : UserUpdate) : User :=
  { u with
    name := d.name.getD u.name
    email := d.email.getD u.email
    bio := d.bio.getD u.bio }

/-- UserRepository.update: fetch by id; on miss return none leaving the
store as it was; on hit overwrite the set fields and commit. -/
def repo_update (db : Db) (user_id : Nat) (d : UserUpdate) : Db × Option User :=
  match get_by_id db user_id with
  | none => (db, none)
  | some u =>
    let u2 := apply_update u d
    (db.map (fun v => if v.id == user_id then u2 else v), some u2)

/-- UserRepository.delete: fetch by id; on miss return false leaving the
store as it was; on hit delete the row and return true. -/
def repo_delete (db : Db) (user_id : Nat) : Db × Bool :=
  match get_by_id db user_id with
  | none => (db, false)
  | some _ => (db.filter (fun v => v.id != user_id), true)

/-! ## Routes (app/routes/user_routes.py)

Each handler returns the post-state of the store together with the HTTP
status code and the response body when there is one. -/

/-- POST /api/users: 409 when some stored row already holds the payload
email, else create and answer 201. -/
def create_user (db : Db) (newId : Nat) (d : UserCreate) : Db × Nat × Option User :=
  match get_by_email db d.email with
  | some _ => (db, 409, none)
  | none =>
    let r := repo_create db newId d
    (r.1, 201, some r.2)

/-- GET /api/users/id: 404 on miss, 200 with the row on hit. -/
def get_user (db : Db) (user_id : Nat) : Nat × Option User :=
  match get_by_id db user_id with
  | none => (404, none)
  | some u => (200, some u)

/-- PUT /api/users/id.  Mirrors the handler order: first, when the payload
sets an email, the duplicate check (409 when a row with a DIFFERENT id
holds that email); only then the repository update (404 on missing id). -/
def update_user (db : Db) (user_id : Nat) (d : UserUpdate) : Db × Nat × Option User :=
  let conflict :=
    match d.email with
    | none => false
    | some e =>
      match get_by_email db e with
      | none => false
      | some ex => ex.id != user_id
  if conflict then (db, 409, none)
  else
    match repo_update db user_id d with
    | (db2, none) => (db2, 404, none)
    | (db2, some u) => (db2, 200, some u)

/-- DELETE /api/users/id: 204 on hit, 404 on miss. -/
def delete_user (db : Db) (user_id : Nat) : Db × Nat :=
  match repo_delete db user_id with
  | (db2, true) => (db2, 204)
  | (db2, false) => (db2, 404)

/-! ## Configuration (app/config.py) -/

/-- The settings fields the telemetry and logging code reads.  The store
and server connection fields play no role in any claim and are omitted. -/
structure Settings where
  app_env : String
  log_level : String
  otel_service_name : String
  otel_service_version : String
  otel_environment : String
  otel_exporter_otlp_endpoint : String
  otel_enable_tracing : Bool
  otel_enable_metrics : Bool
  otel_enable_logging : Bool
deriving Repr, DecidableEq

/-- The defaults of config.py, as produced by Settings() with an empty
environment. -/
def defaultSettings : Settings :=
  { app_env := "development"
    log_level := "info"
    otel_service_name := "otel-example-python"
    otel_service_version := "1.0.0"
    otel_environment := "development"
    otel_exporter_otlp_endpoint := "localhost:4320"
    otel_enable_tracing := true
    otel_enable_metrics := true
    otel_enable_logging := true }

/-! ## Logging state (python logging + app/logging_config.py) -/

/-- A handler attached to the root logger: the console StreamHandler with
its numeric severity threshold, or the OTLP LoggingHandler bridge added by
setup_telemetry. -/
inductive Handler where
  | console (level : Nat)
  | otlpBridge
deriving Repr, DecidableEq

/-- The process-wide logging state the code mutates: the root logger level
and handler list, and the levels of the uvicorn access and error loggers. -/
structure LoggerState where
  rootLevel : Nat
  rootHandlers : List Handler
  uvicornAccessLevel : Nat
  uvicornErrorLevel : Nat
deriving Repr, DecidableEq

/-- ASCII uppercase of one character, the mapping python str.upper applies
to the ASCII level names used here. -/
def upperChar (c : Char) : Char :=
  if 97 ≤ c.toNat ∧ c.toNat ≤ 122 then Char.ofNat (c.toNat - 32) else c

/-- ASCII uppercase of a string (python str.upper on ASCII input). -/
def upperStr (s : String) : String := ⟨s.data.map upperChar⟩

/-- Numeric value of a python logging level name after .upper(), using the
standard table (DEBUG 10 .. CRITICAL 50). -/
def levelNum (s : String) : Nat :=
  if upperStr s = "DEBUG" then 10
  else if upperStr s = "INFO" then 20
  else if upperStr s = "WARNING" then 30
  else if upperStr s = "ERROR" then 40
  else if upperStr s = "CRITICAL" then 50
  else 0

/-- setup_logging of app/logging_config.py: set the root level from
settings, remove EVERY handler currently on the root logger, attach one
console handler at the configured level, raise uvicorn.access to WARNING
(30) and set uvicorn.error to INFO (20).  The removal loop empties the
handler list, so the result does not depend on the previous state. -/
def setup_logging (s : Settings) (_st : LoggerState) : LoggerState :=
  let lvl := levelNum s.log_level
  { rootLevel := lvl
    rootHandlers := [Handler.console lvl]
    uvicornAccessLevel := 30
    uvicornErrorLevel := 20 }

/-! ## Telemetry providers (app/telemetry.py) -/

/-- Resource.create of setup_telemetry: the shared service identity tags. -/
structure Resource where
  service_name : String
  service_version : String
  deployment_environment : String
deriving Repr, DecidableEq

def mkResource (s : Settings) : Resource :=
  { service_name := s.otel_service_name
    service_version := s.otel_service_version
    deployment_environment := s.otel_environment }

/-- An SDK TracerProvider as configured by setup_telemetry: bound to the
resource, with one batch span processor backed by an OTLP exporter at the
given endpoint. -/
structure SdkTracerProvider where
  resource : Resource
  exporterEndpoint : String
  batchProcessors : Nat
deriving Repr, DecidableEq

/-- An SDK MeterProvider as configured by setup_telemetry: bound to the
resource, with one periodic exporting reader at the given endpoint and
interval. -/
structure SdkMeterProvider where
  resource : Resource
  exporterEndpoint : String
  exportIntervalMillis : Nat
deriving Repr, DecidableEq

/-- An SDK LoggerProvider as configured by setup_telemetry: bound to the
resource, with one batch log record processor backed by an OTLP exporter
at the given endpoint. -/
structure SdkLoggerProvider where
  resource : Resource
  exporterEndpoint : String
  batchProcessors : Nat
deriving Repr, DecidableEq

/-- The process-wide registrations setup_telemetry mutates.  A slot holds
none while only the library default (no-op) provider is registered, and
some p once an SDK provider p has been globally registered. -/
structure TelemetryState where
  tracerProvider : Option SdkTracerProvider
  meterProvider : Option SdkMeterProvider
  loggerProvider : Option SdkLoggerProvider
  systemMetricsInstrumented : Bool
  log : LoggerState
deriving Repr, DecidableEq

/-- Construction and registration side effects of setup_telemetry, one
event per object the python code constructs or registers. -/
inductive TelemetryEvent where
  | spanExporterCreated (endpoint : String)
  | batchSpanProcessorCreated
  | tracerProviderRegistered
  | metricExporterCreated (endpoint : String)
  | periodicReaderCreated (intervalMillis : Nat)
  | meterProviderRegistered
  | systemMetricsStarted
  | logExporterCreated (endpoint : String)
  | batchLogProcessorCreated
  | loggerProviderRegistered
  | otlpHandlerAttached
deriving Repr, DecidableEq

def isTraceEvent : TelemetryEvent → Bool
  | .spanExporterCreated _ => true
  | .batchSpanProcessorCreated => true
  | .tracerProviderRegistered => true
  | _ => false

def isMetricEvent : TelemetryEvent → Bool
  | .metricExporterCreated _ => true
  | .periodicReaderCreated _ => true
  | .meterProviderRegistered => true
  | .systemMetricsStarted => true
  | _ => false

def isLogEvent : TelemetryEvent → Bool
  | .logExporterCreated _ => true
  | .batchLogProcessorCreated => true
  | .loggerProviderRegistered => true
  | .otlpHandlerAttached => true
  | _ => false

/-- The tracing block of setup_telemetry, guarded by otel_enable_tracing:
build the OTLP span exporter, wrap it in a batch processor on a fresh
TracerProvider, register it globally. -/
def setup_tracing_block (s : Settings) (st : TelemetryState) :
    TelemetryState × List TelemetryEvent :=
  if s.otel_enable_tracing then
    let p : SdkTracerProvider :=
      { resource := mkResource s
        exporterEndpoint := s.otel_exporter_otlp_endpoint
        batchProcessors := 1 }
    ({ st with tracerProvider := some p },
     [TelemetryEvent.spanExporterCreated s.otel_exporter_otlp_endpoint,
      TelemetryEvent.batchSpanProcessorCreated,
      TelemetryEvent.tracerProviderRegistered])
  else (st, [])

/-- The metrics block of setup_telemetry, guarded by otel_enable_metrics:
build the OTLP metric exporter, a periodic reader at 60000 ms, a
MeterProvider, register it globally, and start the system metrics
instrumentor. -/
def setup_metrics_block (s : Settings) (st : TelemetryState) :
    TelemetryState × List TelemetryEvent :=
  if s.otel_enable_metrics then
    let p : SdkMeterProvider :=
      { resource := mkResource s
        exporterEndpoint := s.otel_exporter_otlp_endpoint
        exportIntervalMillis := 60000 }
    ({ st with
        meterProvider := some p
        systemMetricsInstrumented := true },
     [TelemetryEvent.metricExporterCreated s.otel_exporter_otlp_endpoint,
      TelemetryEvent.periodicReaderCreated 60000,
      TelemetryEvent.meterProviderRegistered,
      TelemetryEvent.systemMetricsStarted])
  else (st, [])

/-- The logging block of setup_telemetry, guarded by otel_enable_logging:
build the OTLP log exporter, a LoggerProvider with a batch log record
processor, register it globally, and attach the bridging LoggingHandler to
the root logger. -/
def setup_otel_logging_block (s : Settings) (st : TelemetryState) :
    TelemetryState × List TelemetryEvent :=
  if s.otel_enable_logging then
    let p : SdkLoggerProvider :=
      { resource := mkResource s
        exporterEndpoint := s.otel_exporter_otlp_endpoint
        batchProcessors := 1 }
    ({ st with
        loggerProvider := some p
        log := { st.log with rootHandlers := st.log.rootHandlers ++ [Handler.otlpBridge] } },
     [TelemetryEvent.logExporterCreated s.otel_exporter_otlp_endpoint,
      TelemetryEvent.batchLogProcessorCreated,
      TelemetryEvent.loggerProviderRegistered,
      TelemetryEvent.otlpHandlerAttached])
  else (st, [])

/-- setup_telemetry of app/telemetry.py: the three independently guarded
blocks, run in source order over the process-wide state, with the events
each block emits. -/
def setup_telemetry (s : Settings) (st : TelemetryState) :
    TelemetryState × List TelemetryEvent :=
  let r1 := setup_tracing_block s st
  let r2 := setup_metrics_block s r1.1
  let r3 := setup_otel_logging_block s r2.1
  (r3.1, r1.2 ++ r2.2 ++ r3.2)

/-- setup_logging at module import followed by setup_telemetry in the
lifespan, the configuration path every startup run takes (main.py). -/
def startup_configure (s : Settings) (st : TelemetryState) :
    TelemetryState × List TelemetryEvent :=
  setup_telemetry s { st with log := setup_logging s st.log }

/-! ## Shutdown (shutdown_telemetry of app/telemetry.py) -/

/-- What a provider shutdown hook does when called: return, or raise with
a message. -/
inductive ShutdownOutcome where
  | success
  | raises (msg : String)
deriving Repr, DecidableEq

/-- A globally registered provider as seen by shutdown_telemetry: either
it has no shutdown attribute (the library default provider, skipped by the
hasattr guard), or it has a shutdown hook with the given outcome. -/
inductive ProviderSlot where
  | noShutdownHook
  | withHook (outcome : ShutdownOutcome)
deriving Repr, DecidableEq

/-- A provider shutdown hook that was actually called and returned. -/
inductive ShutdownEvent where
  | tracerShutDown
  | meterShutDown
  | loggerShutDown
deriving Repr, DecidableEq

/-- One `if hasattr(p, "shutdown"): p.shutdown()` step: skipped providers
contribute nothing, a returning hook records its event, a raising hook
propagates the exception. -/
def shutdownStep (p : ProviderSlot) (ev : ShutdownEvent) :
    Except String (List ShutdownEvent) :=
  match p with
  | .noShutdownHook => .ok []
  | .withHook .success => .ok [ev]
  | .withHook (.raises m) => .error m

/-- shutdown_telemetry of app/telemetry.py: the tracer, meter and logger
provider shutdowns in source order.  The python body has no exception
handling, so a raising hook aborts the function and the later steps never
run; this is the Except chain below. -/
def shutdown_telemetry (tr me lo : ProviderSlot) :
    Except String (List ShutdownEvent) :=
  match shutdownStep tr ShutdownEvent.tracerShutDown with
  | .error m => .error m
  | .ok a =>
    match shutdownStep me ShutdownEvent.meterShutDown with
    | .error m => .error m
    | .ok b =>
      match shutdownStep lo ShutdownEvent.loggerShutDown with
      | .error m => .error m
      | .ok c => .ok (a ++ b ++ c)

/-- True when the slot cannot raise: no hook, or a hook that returns. -/
def slotOk : ProviderSlot → Bool
  | .withHook (.raises _) => false
  | _ => true

/-- The events a non-raising slot contributes. -/
def slotEvents (p : ProviderSlot) (ev : ShutdownEvent) : List ShutdownEvent :=
  match p with
  | .withHook .success => [ev]
  | _ => []

/-! ## Startup order (app/main.py) -/

/-- The observable startup steps the spec orders. -/
inductive StartupStep where
  | setupLoggingStep
  | settingsResolvedStep
  | setupTelemetryStep
  | instrumentSqlalchemyStep
  | instrumentFastapiStep
deriving Repr, DecidableEq

/-- The steps main.py runs at module import, in line order: setup_logging
(line 23), get_settings (line 26), then instrument_fastapi(app)
(line 69) right after the FastAPI object is created. -/
def moduleImportSteps : List StartupStep :=
  [StartupStep.setupLoggingStep, StartupStep.settingsResolvedStep,
   StartupStep.instrumentFastapiStep]

/-- The steps the lifespan startup phase runs, in line order:
setup_telemetry(settings) (line 34) then instrument_sqlalchemy (line 36).
The lifespan runs when the server starts, after the module import. -/
def lifespanStartupSteps : List StartupStep :=
  [StartupStep.setupTelemetryStep, StartupStep.instrumentSqlalchemyStep]

/-- A full startup run: module import followed by lifespan startup. -/
def startupRunSteps : List StartupStep :=
  moduleImportSteps ++ lifespanStartupSteps

/-- Modelled from the spec words, for comparison with startupRunSteps:
the order section 4.4 claims, logging setup, settings resolution,
telemetry bundle setup, data-access instrumentation, HTTP
instrumentation. -/
def specClaimedStartupOrder : List StartupStep :=
  [StartupStep.setupLoggingStep, StartupStep.settingsResolvedStep,
   StartupStep.setupTelemetryStep, StartupStep.instrumentSqlalchemyStep,
   StartupStep.instrumentFastapiStep]

/-! ## Readiness endpoint (app/routes/health.py) -/

/-- The JSON body the ready endpoint answers with; error is the optional
stringified exception field. -/
structure ReadyBody where
  status : String
  database : String
  error : Option String
deriving Repr, DecidableEq

/-- ready of app/routes/health.py over the outcome of the SELECT 1 probe:
the try block answers 200 ready/connected, the except block catches any
exception e and answers 503 not ready/disconnected with str(e). -/
def ready (probe : Except String Unit) : Nat × ReadyBody :=
  match probe with
  | .ok _ => (200, { status := "ready", database := "connected", error := none })
  | .error e =>
    (503, { status := "not ready", database := "disconnected", error := some e })

/-! ## Helper definitions for iterated setup and fresh-process states -/

/-- n consecutive calls of setup_logging on a state, as in repeated
startup configuration. -/
def setup_logging_iter (s : Settings) (st : LoggerState) : Nat → LoggerState
  | 0 => st
  | n + 1 => setup_logging s (setup_logging_iter s st n)

/-- The python logging state of a fresh process: root logger at WARNING
(30) with no handlers, child loggers at NOTSET (0). -/
def initialLoggerState : LoggerState :=
  { rootLevel := 30, rootHandlers := [], uvicornAccessLevel := 0, uvicornErrorLevel := 0 }

/-- The telemetry state of a fresh process: only the library default
providers are registered, nothing instrumented. -/
def initialTelemetryState : TelemetryState :=
  { tracerProvider := none, meterProvider := none, loggerProvider := none,
    systemMetricsInstrumented := false, log := initialLoggerState }

/-! ## Theorems -/

/-- C1, counterexample: the startup run of main.py does NOT follow the
claimed order.  instrument_fastapi runs at module import (line 69), before
the lifespan calls setup_telemetry (line 34), so the telemetry providers
are not registered before the HTTP attacher is invoked. -/
theorem startup_order_claim_false :
    startupRunSteps ≠ specClaimedStartupOrder ∧
    List.indexOf StartupStep.instrumentFastapiStep startupRunSteps <
      List.indexOf StartupStep.setupTelemetryStep startupRunSteps := by
  decide

/-- C1, amended: at startup, logging setup precedes settings resolution,
which precedes HTTP instrumentation, all at module import; then the
lifespan runs telemetry provider setup followed by data-access
instrumentation.  In particular setup_telemetry completes before
instrument_sqlalchemy, but instrument_fastapi is invoked before
setup_telemetry. -/
theorem startup_order_actual :
    startupRunSteps =
      [StartupStep.setupLoggingStep, StartupStep.settingsResolvedStep,
       StartupStep.instrumentFastapiStep, StartupStep.setupTelemetryStep,
       StartupStep.instrumentSqlalchemyStep] ∧
    List.indexOf StartupStep.setupLoggingStep startupRunSteps <
      List.indexOf StartupStep.settingsResolvedStep startupRunSteps ∧
    List.indexOf StartupStep.settingsResolvedStep startupRunSteps <
      List.indexOf StartupStep.instrumentFastapiStep startupRunSteps ∧
    List.indexOf StartupStep.setupTelemetryStep startupRunSteps <
      List.indexOf StartupStep.instrumentSqlalchemyStep startupRunSteps := by
  decide

/-- C2: each signal of setup_telemetry is gated by its own flag.  A
disabled signal leaves its global registration (and for metrics the
system instrumentor, for logging the root handler list) unchanged and
constructs no exporter, processor or provider, while each enabled signal
is registered with the resource, endpoint and processor the source
builds. -/
theorem setup_telemetry_flag_gating (s : Settings) (st : TelemetryState) :
    (s.otel_enable_tracing = false →
      (setup_telemetry s st).1.tracerProvider = st.tracerProvider ∧
      ((setup_telemetry s st).2.filter isTraceEvent) = []) ∧
    (s.otel_enable_metrics = false →
      (setup_telemetry s st).1.meterProvider = st.meterProvider ∧
      (setup_telemetry s st).1.systemMetricsInstrumented = st.systemMetricsInstrumented ∧
      ((setup_telemetry s st).2.filter isMetricEvent) = []) ∧
    (s.otel_enable_logging = false →
      (setup_telemetry s st).1.loggerProvider = st.loggerProvider ∧
      (setup_telemetry s st).1.log = st.log ∧
      ((setup_telemetry s st).2.filter isLogEvent) = []) ∧
    (s.otel_enable_tracing = true →
      (setup_telemetry s st).1.tracerProvider =
        some { resource := mkResource s,
               exporterEndpoint := s.otel_exporter_otlp_endpoint,
               batchProcessors := 1 }) ∧
    (s.otel_enable_metrics = true →
      (setup_telemetry s st).1.meterProvider =
        some { resource := mkResource s,
               exporterEndpoint := s.otel_exporter_otlp_endpoint,
               exportIntervalMillis := 60000 } ∧
      (setup_telemetry s st).1.systemMetricsInstrumented = true) ∧
    (s.otel_enable_logging = true →
      (setup_telemetry s st).1.loggerProvider =
        some { resource := mkResource s,
               exporterEndpoint := s.otel_exporter_otlp_endpoint,
               batchProcessors := 1 }) := by
  cases ht : s.otel_enable_tracing <;> cases hm : s.otel_enable_metrics <;>
    cases hl : s.otel_enable_logging <;>
    simp [setup_telemetry, setup_tracing_block, setup_metrics_block,
      setup_otel_logging_block, ht, hm, hl, isTraceEvent, isMetricEvent, isLogEvent]

/-- C2, witness: with tracing disabled and the other two signals at their
defaults, the trace registration of a fresh process is untouched, no
trace object is constructed, and metrics are still set up. -/
theorem setup_telemetry_flag_gating_witness :
    (setup_telemetry { defaultSettings with otel_enable_tracing := false }
        initialTelemetryState).1.tracerProvider = initialTelemetryState.tracerProvider ∧
    ((setup_telemetry { defaultSettings with otel_enable_tracing := false }
        initialTelemetryState).2.filter isTraceEvent) = [] ∧
    (setup_telemetry { defaultSettings with otel_enable_tracing := false }
        initialTelemetryState).1.systemMetricsInstrumented = true := by
  have h := setup_telemetry_flag_gating
    { defaultSettings with otel_enable_tracing := false } initialTelemetryState
  exact ⟨(h.1 rfl).1, (h.1 rfl).2, (h.2.2.2.2.1 rfl).2⟩

/-- C3, counterexample: shutdown_telemetry has no exception handling, so
a tracer provider whose shutdown hook raises makes the whole function
raise, and the meter and logger providers are never shut down (the result
is the propagated error, not a record of the other two shutdowns). -/
theorem shutdown_failure_propagates :
    shutdown_telemetry (ProviderSlot.withHook (ShutdownOutcome.raises "boom"))
        (ProviderSlot.withHook ShutdownOutcome.success)
        (ProviderSlot.withHook ShutdownOutcome.success) =
      Except.error "boom" := rfl

/-- C3, amended: shutdown_telemetry shuts the providers down in the order
tracer, meter, logger, skipping any provider without a shutdown hook
without affecting the others; but when a shutdown hook raises, the
exception propagates out of shutdown_telemetry and the remaining
providers are not shut down. -/
theorem shutdown_telemetry_spec (tr me lo : ProviderSlot) :
    (slotOk tr = true → slotOk me = true → slotOk lo = true →
      shutdown_telemetry tr me lo =
        Except.ok (slotEvents tr ShutdownEvent.tracerShutDown ++
          slotEvents me ShutdownEvent.meterShutDown ++
          slotEvents lo ShutdownEvent.loggerShutDown)) ∧
    (∀ m, tr = ProviderSlot.withHook (ShutdownOutcome.raises m) →
      shutdown_telemetry tr me lo = Except.error m) ∧
    (∀ m, slotOk tr = true →
      me = ProviderSlot.withHook (ShutdownOutcome.raises m) →
      shutdown_telemetry tr me lo = Except.error m) ∧
    (∀ m, slotOk tr = true → slotOk me = true →
      lo = ProviderSlot.withHook (ShutdownOutcome.raises m) →
      shutdown_telemetry tr me lo = Except.error m) := by
  rcases tr with _ | (_ | mt) <;> rcases me with _ | (_ | mm) <;>
    rcases lo with _ | (_ | ml) <;>
    simp [shutdown_telemetry, shutdownStep, slotOk, slotEvents]

/-- C3, witness: when the tracer and logger hooks return and the meter
provider is the default one without a hook, all present providers are
shut down in order. -/
theorem shutdown_telemetry_spec_witness :
    shutdown_telemetry (ProviderSlot.withHook ShutdownOutcome.success)
        ProviderSlot.noShutdownHook
        (ProviderSlot.withHook ShutdownOutcome.success) =
      Except.ok [ShutdownEvent.tracerShutDown, ShutdownEvent.loggerShutDown] := by
  have h := shutdown_telemetry_spec (ProviderSlot.withHook ShutdownOutcome.success)
    ProviderSlot.noShutdownHook (ProviderSlot.withHook ShutdownOutcome.success)
  simpa [slotEvents] using h.1 rfl rfl rfl

/-- C6: the ready endpoint answers 200 with status ready and database
connected exactly when the probe query succeeds, and answers 503 with
status not ready, database disconnected and the stringified exception
whenever the probe raises; the handler is total, so no exception
propagates to the caller. -/
theorem ready_endpoint_spec (probe : Except String Unit) :
    (ready probe =
        (200, { status := "ready", database := "connected", error := none }) ↔
      probe = Except.ok ()) ∧
    (∀ e, probe = Except.error e →
      ready probe =
        (503, { status := "not ready", database := "disconnected",
                error := some e })) := by
  cases probe with
  | ok u => cases u; simp [ready]
  | error e => simp [ready]

/-- C6, witness: a failing probe yields the 503 body with its message,
and a succeeding probe yields the 200 body. -/
theorem ready_endpoint_spec_witness :
    ready (Except.error "db down") =
      (503, { status := "not ready", database := "disconnected",
              error := some "db down" }) ∧
    ready (Except.ok ()) =
      (200, { status := "ready", database := "connected", error := none }) :=
  ⟨(ready_endpoint_spec (Except.error "db down")).2 "db down" rfl,
   (ready_endpoint_spec (Except.ok ())).1.mpr rfl⟩

/-- C7: after the startup configuration path (setup_logging then
setup_telemetry), the console handler at the configured level is on the
root logger for every configuration, and the OTLP bridge handler is on
the root logger exactly when otel_enable_logging is true. -/
theorem console_always_on_otlp_gated (s : Settings) (st : TelemetryState) :
    Handler.console (levelNum s.log_level) ∈
      (startup_configure s st).1.log.rootHandlers ∧
    (Handler.otlpBridge ∈ (startup_configure s st).1.log.rootHandlers ↔
      s.otel_enable_logging = true) := by
  cases ht : s.otel_enable_tracing <;> cases hm : s.otel_enable_metrics <;>
    cases hl : s.otel_enable_logging <;>
    simp [startup_configure, setup_telemetry, setup_tracing_block,
      setup_metrics_block, setup_otel_logging_block, setup_logging, ht, hm, hl]

/-- C8: after any positive number of consecutive setup_logging calls the
root logger holds exactly the one console handler at the configured
level, the root level is the configured one, uvicorn.access is at WARNING
(30) and uvicorn.error is at INFO (20). -/
theorem setup_logging_idempotent (s : Settings) (st : LoggerState) (n : Nat)
    (h : 1 ≤ n) :
    (setup_logging_iter s st n).rootHandlers =
      [Handler.console (levelNum s.log_level)] ∧
    (setup_logging_iter s st n).rootLevel = levelNum s.log_level ∧
    (setup_logging_iter s st n).uvicornAccessLevel = 30 ∧
    (setup_logging_iter s st n).uvicornErrorLevel = 20 := by
  cases n with
  | zero => exact absurd h (by decide)
  | succ m => simp [setup_logging_iter, setup_logging]

/-- C8, witness: three consecutive calls on a fresh process with the
default settings leave one console handler at INFO (20), uvicorn.access
at 30 and uvicorn.error at 20. -/
theorem setup_logging_idempotent_witness :
    (setup_logging_iter defaultSettings initialLoggerState 3).rootHandlers =
      [Handler.console 20] ∧
    (setup_logging_iter defaultSettings initialLoggerState 3).uvicornAccessLevel = 30 ∧
    (setup_logging_iter defaultSettings initialLoggerState 3).uvicornErrorLevel = 20 := by
  have h := setup_logging_idempotent defaultSettings initialLoggerState 3 (by decide)
  exact ⟨by rw [h.1]; decide, h.2.2.1, h.2.2.2⟩

/-- C4: a create request whose email some stored user already holds fails
with 409 and leaves the store unchanged, while a create request whose
email belongs to no stored user appends the new row and answers 201 with
the created user. -/
theorem create_user_spec (db : Db) (newId : Nat) (d : UserCreate) :
    ((∃ u ∈ db, u.email = d.email) → create_user db newId d = (db, 409, none)) ∧
    ((∀ u ∈ db, u.email ≠ d.email) →
      create_user db newId d =
        (db ++ [{ id := newId, name := d.name, email := d.email, bio := d.bio }],
         201,
         some { id := newId, name := d.name, email := d.email, bio := d.bio })) := by
  constructor
  · rintro ⟨u, hu, he⟩
    have hsome : (get_by_email db d.email).isSome = true := by
      simp only [get_by_email, List.find?_isSome]
      exact ⟨u, hu, by simp [he]⟩
    rcases hge : get_by_email db d.email with _ | v
    · rw [hge] at hsome; simp at hsome
    · simp [create_user, hge]
  · intro h
    have hnone : get_by_email db d.email = none := by
      simp only [get_by_email, List.find?_eq_none]
      intro u hu
      simpa using h u hu
    simp [create_user, hnone, repo_create]

/-- C4, witness: creating a second user with an email already stored is
rejected with 409 leaving the store as it was, and creating a user with a
fresh email in an empty store answers 201 with the stored row. -/
theorem create_user_spec_witness :
    create_user [{ id := 1, name := "Ada", email := "ada@example.com", bio := none }]
        2 { name := "Bob", email := "ada@example.com", bio := none } =
      ([{ id := 1, name := "Ada", email := "ada@example.com", bio := none }],
       409, none) ∧
    create_user [] 1 { name := "Ada", email := "ada@example.com", bio := none } =
      ([{ id := 1, name := "Ada", email := "ada@example.com", bio := none }], 201,
        some { id := 1, name := "Ada", email := "ada@example.com", bio := none }) := by
  constructor
  · exact (create_user_spec _ 2 _).1
      ⟨{ id := 1, name := "Ada", email := "ada@example.com", bio := none },
        by simp, rfl⟩
  · exact (create_user_spec [] 1 _).2 (by simp)

/-- C5, counterexample: with one stored user holding ada@example.com and
id 1, a PUT targeting the missing id 2 whose payload sets that same email
answers 409, not the claimed 404, because the handler runs the duplicate
check before the existence check. -/
theorem missing_user_put_counterexample :
    get_by_id [{ id := 1, name := "Ada", email := "ada@example.com", bio := none }]
        2 = none ∧
    update_user [{ id := 1, name := "Ada", email := "ada@example.com", bio := none }]
        2 { name := none, email := some "ada@example.com", bio := none } =
      ([{ id := 1, name := "Ada", email := "ada@example.com", bio := none }],
       409, none) :=
  ⟨rfl, rfl⟩

/-- C5, amended: for a user id with no stored user, GET and DELETE answer
404 and leave the store unchanged; PUT also leaves the store unchanged,
and answers 409 whenever the payload sets an email some stored user
(necessarily of a different id) already holds, and 404 otherwise. -/
theorem missing_user_requests (db : Db) (uid : Nat)
    (h : get_by_id db uid = none) :
    get_user db uid = (404, none) ∧
    delete_user db uid = (db, 404) ∧
    ∀ d : UserUpdate,
      (update_user db uid d).1 = db ∧
      ((∃ e, d.email = some e ∧ ∃ v ∈ db, v.email = e) →
        (update_user db uid d).2 = (409, (none : Option User)) ∧
        ∃ e, d.email = some e ∧ ∃ v ∈ db, v.email = e ∧ v.id ≠ uid) ∧
      ((¬ ∃ e, d.email = some e ∧ ∃ v ∈ db, v.email = e) →
        (update_user db uid d).2 = (404, (none : Option User))) := by
  have hidall : ∀ v ∈ db, v.id ≠ uid := by
    simpa [get_by_id, List.find?_eq_none] using h
  refine ⟨by simp [get_user, h], by simp [delete_user, repo_delete, h], ?_⟩
  intro d
  rcases hde : d.email with _ | e
  · refine ⟨by simp [update_user, hde, repo_update, h], ?_, ?_⟩
    · rintro ⟨e, he, -⟩
      simp at he
    · intro _
      simp [update_user, hde, repo_update, h]
  · rcases hge : get_by_email db e with _ | ex
    · have hnoa : ∀ v ∈ db, v.email ≠ e := by
        simpa [get_by_email, List.find?_eq_none] using hge
      refine ⟨by simp [update_user, hde, hge, repo_update, h], ?_, ?_⟩
      · rintro ⟨e2, he2, v, hv, hve⟩
        obtain rfl := Option.some_inj.mp he2
        exact absurd hve (hnoa v hv)
      · intro _
        simp [update_user, hde, hge, repo_update, h]
    · have hmem : ex ∈ db :=
        List.mem_of_find?_eq_some (by simpa [get_by_email] using hge)
      have hp : ex.email = e := by
        have := List.find?_some (by simpa [get_by_email] using hge)
        simpa using this
      have hne : ex.id ≠ uid := hidall ex hmem
      refine ⟨by simp [update_user, hde, hge, hne], ?_, ?_⟩
      · intro _
        exact ⟨by simp [update_user, hde, hge, hne],
          e, rfl, ex, hmem, hp, hne⟩
      · intro hno
        exact absurd ⟨e, rfl, ex, hmem, hp⟩ hno

/-- C5, witness: on an empty store, GET and DELETE of id 5 answer 404 and
leave the store empty; and a PUT targeting the missing id 2 on a store
holding ada@example.com under id 1, with a payload setting that email,
answers 409. -/
theorem missing_user_requests_witness :
    get_user ([] : Db) 5 = (404, none) ∧
    delete_user ([] : Db) 5 = ([], 404) ∧
    (update_user [{ id := 1, name := "Ada", email := "ada@example.com", bio := none }]
        2 { name := none, email := some "ada@example.com", bio := none }).2 =
      (409, (none : Option User)) :=
  have h0 := missing_user_requests ([] : Db) 5 rfl
  have h1 := missing_user_requests
    [{ id := 1, name := "Ada", email := "ada@example.com", bio := none }] 2 rfl
  ⟨h0.1, h0.2.1,
    ((h1.2.2 { name := none, email := some "ada@example.com", bio := none }).2.1
      ⟨"ada@example.com", rfl,
        { id := 1, name := "Ada", email := "ada@example.com", bio := none },
        by simp, rfl⟩).1⟩

/-- C9: an update whose payload sets the own current email of the target user
is not rejected by the duplicate check and proceeds to answer 200 (under
the store invariant that the email column is unique); and in general an
update answers 409 only when some stored user with a different id already
holds the requested email. -/
theorem update_own_email_not_conflict (db : Db) (uid : Nat) (d : UserUpdate)
    (u : User) (hmem : u ∈ db) (hid : u.id = uid)
    (hemail : d.email = some u.email)
    (huniq : ∀ v ∈ db, v.email = u.email → v.id = uid) :
    (update_user db uid d).2.1 = 200 ∧
    ∀ (db2 : Db) (uid2 : Nat) (d2 : UserUpdate),
      (update_user db2 uid2 d2).2.1 = 409 →
      ∃ e, d2.email = some e ∧ ∃ v ∈ db2, v.email = e ∧ v.id ≠ uid2 := by
  constructor
  · have hsome : (get_by_email db u.email).isSome = true := by
      simp only [get_by_email, List.find?_isSome]
      exact ⟨u, hmem, by simp⟩
    rcases hge : get_by_email db u.email with _ | v
    · rw [hge] at hsome; simp at hsome
    · have hv : v.email = u.email := by
        have := List.find?_some (by simpa [get_by_email] using hge)
        simpa using this
      have hvid : v.id = uid :=
        huniq v (List.mem_of_find?_eq_some (by simpa [get_by_email] using hge)) hv
      have hisome : (get_by_id db uid).isSome = true := by
        simp only [get_by_id, List.find?_isSome]
        exact ⟨u, hmem, by simp [hid]⟩
      rcases hgi : get_by_id db uid with _ | w
      · rw [hgi] at hisome; simp at hisome
      · simp [update_user, hemail, hge, hvid, repo_update, hgi]
  · intro db2 uid2 d2 h409
    rcases hde : d2.email with _ | e
    · rcases hru : repo_update db2 uid2 d2 with ⟨db3, _ | w⟩ <;>
        simp [update_user, hde, hru] at h409
    · rcases hge2 : get_by_email db2 e with _ | ex
      · rcases hru : repo_update db2 uid2 d2 with ⟨db3, _ | w⟩ <;>
          simp [update_user, hde, hge2, hru] at h409
      · by_cases hid2 : ex.id = uid2
        · rcases hru : repo_update db2 uid2 d2 with ⟨db3, _ | w⟩ <;>
            simp [update_user, hde, hge2, hid2, hru] at h409
        · exact ⟨e, rfl, ex,
            List.mem_of_find?_eq_some (by simpa [get_by_email] using hge2),
            eq_of_beq (List.find?_some (p := fun u => u.email == e) (a := ex)
              (by simpa [get_by_email] using hge2)),
            hid2⟩

/-- C9, witness: updating the only stored user with a payload carrying
the own email of that same user answers 200. -/
theorem update_own_email_not_conflict_witness :
    (update_user [{ id := 1, name := "Ada", email := "ada@example.com", bio := none }]
        1 { name := none, email := some "ada@example.com", bio := none }).2.1 = 200 :=
  (update_own_email_not_conflict
      [{ id := 1, name := "Ada", email := "ada@example.com", bio := none }] 1
      { name := none, email := some "ada@example.com", bio := none }
      { id := 1, name := "Ada", email := "ada@example.com", bio := none }
      (by decide) rfl rfl (by decide)).1

/-- C10: a successful repository update returns the fetched row with only
the explicitly set payload fields overwritten: the id is never changed,
and each of name, email and bio keeps its previous value whenever it is
unset in the payload. -/
theorem update_preserves_unset_fields (db : Db) (uid : Nat) (d : UserUpdate)
    (u : User) (h : get_by_id db uid = some u) :
    (repo_update db uid d).2 = some (apply_update u d) ∧
    (apply_update u d).id = u.id ∧
    (d.name = none → (apply_update u d).name = u.name) ∧
    (d.email = none → (apply_update u d).email = u.email) ∧
    (d.bio = none → (apply_update u d).bio = u.bio) := by
  refine ⟨by simp [repo_update, h], rfl, ?_, ?_, ?_⟩ <;>
    intro hx <;> simp [apply_update, hx]

/-- C10, witness: updating only the name of the stored user keeps the id,
email and bio and changes the name. -/
theorem update_preserves_unset_fields_witness :
    (repo_update [{ id := 1, name := "Ada", email := "ada@example.com", bio := none }]
        1 { name := some "Ada Lovelace", email := none, bio := none }).2 =
      some { id := 1, name := "Ada Lovelace", email := "ada@example.com", bio := none } ∧
    (apply_update { id := 1, name := "Ada", email := "ada@example.com", bio := none }
        { name := some "Ada Lovelace", email := none, bio := none }).email =
      "ada@example.com" := by
  have h := update_preserves_unset_fields
    [{ id := 1, name := "Ada", email := "ada@example.com", bio := none }] 1
    { name := some "Ada Lovelace", email := none, bio := none }
    { id := 1, name := "Ada", email := "ada@example.com", bio := none } rfl
  exact ⟨by rw [h.1]; rfl, h.2.2.2.1 rfl⟩

end OtelExample
